import Mathlib

/-
Verification of the notebooktester job orchestrator
(src/notebooktester/main.py) against its specification.

The Python code is shallowly embedded: pure computations become Lean
functions, Python `float` values become `PyFloat` (a rational or the
`float("inf")` sentinel), and code that can raise an uncaught Python
exception returns `Except String α`.  Interactions with the file system
and the sandbox collaborator are represented by explicit input data
(the state of the cache file, the outcome of parsing/execution, ...)
passed to the embedded functions.
-/

set_option autoImplicit false

/-- Python float values as the code uses them: a finite value (modelled as a
rational, since only ordering and addition matter) or `float("inf")`, the
sentinel `_execute_notebook` stores for a failed run's execution time. -/
inductive PyFloat where
  | finite (q : ℚ)
  | inf
deriving DecidableEq, Repr

/-- The `NotebookStats` dataclass (main.py lines 19-25): the persisted cache
record for one notebook. -/
structure NotebookStats where
  last_modified : ℚ
  success : Bool
  message : String
  timeout : Int
  execution_time : PyFloat
deriving DecidableEq, Repr

/-- The `TestResult` dataclass (main.py lines 32-37): the transient per-run
outcome handed to the scheduler. The notebook path is kept as its string
spelling. -/
structure TestResult where
  notebook_path : String
  success : Bool
  message : String
  cached : Bool
deriving DecidableEq, Repr

/-- The literal marker substring `"A cell timed out"` used at main.py lines
120 and 301 to recognise a budget-exceeded failure. -/
def timeoutMarker : String := "A cell timed out"

/-- Python's substring test `pat in s`: `pat` occurs contiguously in `s`. -/
def containsSub (s pat : String) : Bool :=
  s.toList.tails.any (fun t => List.isPrefixOf pat.toList t)

/-- State of the cache record file for one job, as the embedded functions
see it: the file is absent, or it exists but `json.load` /
`NotebookStats(**...)` raises (corrupt), or it parses into a record. -/
inductive CacheState where
  | absent
  | corrupt (err : String)
  | valid (rec : NotebookStats)
deriving DecidableEq, Repr

/-- The tester state produced by a successful `NotebookTester.__init__`. -/
structure TesterConfig where
  timeout : Int
  cache_dir : Option String
  force : Bool
deriving DecidableEq, Repr

/-- `NotebookTester.__init__` (main.py lines 45-70): stores the settings and
then unconditionally evaluates `Path(cache_dir)` (line 58) followed by
`mkdir`.  In Python, `Path(None)` raises `TypeError`, so construction with a
null cache directory fails instead of disabling caching; the `None` guards
at lines 106 and 209 are unreachable. -/
def NotebookTester_init (timeout : Int) (cache_dir : Option String)
    (force : Bool) : Except String TesterConfig :=
  match cache_dir with
  | some d => .ok { timeout := timeout, cache_dir := some d, force := force }
  | none => .error "TypeError: argument should be a str or an os.PathLike object, not NoneType"

/-- `NotebookTester._should_run_test` (main.py lines 104-125), translated
line by line.  `force` and `cache_dir` are the tester attributes;
`srcMtime` is `notebook_path.stat().st_mtime`.  The read of the cache file
(lines 116-117) is not guarded by any try/except, so a corrupt file makes
the whole call raise, modelled as `.error`.  Python's `not self.cache_dir`
is true exactly when `cache_dir` is `None` (a `Path` is always truthy). -/
def should_run_test (force : Bool) (cache_dir : Option String) (timeout : Int)
    (cacheState : CacheState) (srcMtime : ℚ) : Except String Bool :=
  if force || cache_dir.isNone then .ok true
  else
    match cacheState with
    | .absent => .ok true
    | .corrupt err => .error err
    | .valid cache =>
      if timeout ≤ cache.timeout && containsSub cache.message timeoutMarker then
        .ok false
      else
        .ok (decide (cache.last_modified < srcMtime) || !cache.success)

/-- Python's `str.replace(old, new)` in the special case of a
single-character pattern and replacement, which is all `_get_cache_key`
uses: every occurrence of the character is replaced, i.e. a character-wise
map. -/
def pyReplaceChar (s : String) (old new : Char) : String :=
  ⟨s.toList.map (fun c => if c = old then new else c)⟩

/-- The body of `NotebookTester._get_cache_key` (main.py lines 101-102)
applied to the canonical absolute path string `str(notebook_path.resolve())`:
replace every `/` and every `\` by `_`. -/
def get_cache_key_of_resolved (resolved : String) : String :=
  pyReplaceChar (pyReplaceChar resolved '/' '_') '\\' '_'

/-- A Python `Path` value as `_get_cache_key` sees it: its textual spelling
and the canonical absolute path `str(path.resolve())` it resolves to.  Two
different spellings of the same file share the same `resolved` string. -/
structure PyPath where
  spelling : String
  resolved : String
deriving DecidableEq, Repr

/-- `NotebookTester._get_cache_key` (main.py lines 101-102). -/
def get_cache_key (p : PyPath) : String :=
  get_cache_key_of_resolved p.resolved

/-- File-system operations performed by `NotebookStats.save_to_cache`.
`openTrunc` is `open(path, "w")`, which truncates the file in place. -/
inductive FsOp where
  | openTrunc (path : String)
  | writeChunk (path : String) (data : String)
  | closeFile (path : String)
  | rename (src dst : String)
deriving DecidableEq, Repr

/-- `NotebookStats.save_to_cache` (main.py lines 27-29) as the sequence of
file-system operations it performs: it opens the target record file itself
in `"w"` mode (truncating it) and dumps the JSON payload into it.  No
temporary file and no rename are involved. -/
def save_to_cache_trace (target : String) (payload : String) : List FsOp :=
  [.openTrunc target, .writeChunk target payload, .closeFile target]

/-- Content of the file at `target` (`none` = does not exist) after running
the listed operations, starting from content `old`.  Only the target path is
tracked; a rename onto `target` from elsewhere installs the renamed file's
content, which for this model is supplied as the rename source's data via
`writeChunk` beforehand, so we treat rename-onto-target as leaving `old`
untouched unless the source was the target itself. -/
def runOpsOn (target : String) (old : Option String) : List FsOp → Option String
  | [] => old
  | op :: rest =>
    runOpsOn target
      (match op with
       | .openTrunc p => if p = target then some "" else old
       | .writeChunk p d =>
         if p = target then
           match old with
           | some c => some (c ++ d)
           | none => some d
         else old
       | .closeFile _ => old
       | .rename _ dst => if dst = target then old else old) rest

/-- All crash states of the target file: its content after each prefix of
the operation list (a crash may stop the trace after any operation). -/
def crashStates (target : String) (old : Option String) (ops : List FsOp) :
    List (Option String) :=
  (List.range (ops.length + 1)).map (fun k => runOpsOn target old (ops.take k))

/-- Atomicity of a write trace with respect to partial writes: every crash
state of the target file is either the complete old content or the complete
new content. -/
def atomicWrtB (target : String) (old : Option String) (new : String)
    (ops : List FsOp) : Bool :=
  (crashStates target old ops).all (fun s => s == old || s == some new)

/-- Outcome of the raw `km.shutdown_kernel(now=True)` call as wrapped by
`_safe_shutdown_kernel`: it finishes inside the 2.0 s bound, exceeds the
bound (the `asyncio.wait_for` raises `TimeoutError`), or raises some other
exception. -/
inductive ShutdownOutcome where
  | ok
  | timesOut
  | raises (e : String)
deriving DecidableEq, Repr

/-- The kernel client `client.kc`: whether it has a `stop_channels`
attribute, and whether that call raises (`some e`) or succeeds (`none`).
The call is awaited with no time bound of its own. -/
structure KernelConn where
  hasStopChannels : Bool
  stopChannelsErr : Option String
deriving DecidableEq, Repr

/-- The kernel manager `client.km`: whether it has a `shutdown_kernel`
attribute, and how the bounded shutdown call turns out. -/
structure KernelMgr where
  hasShutdownKernel : Bool
  shutdown : ShutdownOutcome
deriving DecidableEq, Repr

/-- The `NotebookClient` as `_cleanup_notebook_client` sees it: its `kc`
and `km` attributes, either of which may be `None`. -/
structure ClientState where
  kc : Option KernelConn
  km : Option KernelMgr
deriving DecidableEq, Repr

/-- Observable effects of `_cleanup_notebook_client`: a resource actually
released, or a log line emitted for a swallowed error. -/
inductive CleanupLog where
  | channelsStopped
  | channelErrorLogged (e : String)
  | kernelShutdown
  | kernelTimeoutLogged
  | kernelErrorLogged (e : String)
deriving DecidableEq, Repr

/-- The inner `_safe_stop_channels` of `_cleanup_notebook_client` (main.py
lines 136-147): a missing client or attribute is skipped, and any exception
from `stop_channels` is caught and logged at debug level. -/
def safe_stop_channels (kc : Option KernelConn) : List CleanupLog :=
  match kc with
  | none => []
  | some kc =>
    if kc.hasStopChannels then
      match kc.stopChannelsErr with
      | none => [.channelsStopped]
      | some e => [.channelErrorLogged e]
    else []

/-- The inner `_safe_shutdown_kernel` of `_cleanup_notebook_client` (main.py
lines 149-162): the shutdown is bounded by `asyncio.wait_for(..., 2.0)`; a
`TimeoutError` is caught and logged as a warning and the release abandoned;
any other exception is caught and logged at debug level. -/
def safe_shutdown_kernel (km : Option KernelMgr) : List CleanupLog :=
  match km with
  | none => []
  | some km =>
    if km.hasShutdownKernel then
      match km.shutdown with
      | .ok => [.kernelShutdown]
      | .timesOut => [.kernelTimeoutLogged]
      | .raises e => [.kernelErrorLogged e]
    else []

/-- `NotebookTester._cleanup_notebook_client` (main.py lines 127-168): both
releases are attempted (via `asyncio.gather`), every exception and the
shutdown timeout is caught inside the two safe wrappers, so the function
always returns normally; its only observable output is the log.  A `None`
client returns immediately. -/
def cleanup_notebook_client (client : Option ClientState) : List CleanupLog :=
  match client with
  | none => []
  | some c => safe_stop_channels c.kc ++ safe_shutdown_kernel c.km

/-- Environment of one `_execute_notebook` call: whether opening and
parsing the document (and constructing the `NotebookClient`) succeeds and
how long it takes, whether `client.async_execute()` succeeds and how long it
takes, the error texts `str(e)` of the exceptions otherwise, and the
notebook source's `st_mtime`.  `parseTime` is the wall-clock time consumed
between `start_time = time.time()` (line 174) and the start of
`async_execute` (line 185), i.e. by `open`, `nbformat.read` and the client
construction; `execTime` is the wall-clock time consumed by
`async_execute` itself. -/
structure ExecEnv where
  parseOk : Bool
  parseErr : String
  parseTime : ℚ
  execOk : Bool
  execErr : String
  execTime : ℚ
  mtime : ℚ
deriving DecidableEq, Repr

/-- Result of `_execute_notebook`: the stats it returns, how many times its
`finally` block invoked `_cleanup_notebook_client` on a created client, and
the cleanup log. -/
structure ExecResult where
  stats : NotebookStats
  cleanupCount : Nat
  cleanupLogs : List CleanupLog
deriving DecidableEq, Repr

/-- `NotebookTester._execute_notebook` (main.py lines 170-204).  If parsing
or client construction raises, `client` is still `None`: the except branch
returns failure stats with `execution_time = float("inf")` and the `finally`
block skips cleanup.  Once the client is created, the `finally` block runs
`_cleanup_notebook_client` exactly once whether `async_execute` succeeded
or raised.  On success `execution_time = time.time() - start_time`, which
spans parsing and execution since `start_time` is taken before `open`. -/
def execute_notebook (timeout : Int) (env : ExecEnv) (client : ClientState) :
    ExecResult :=
  if env.parseOk then
    if env.execOk then
      { stats := { last_modified := env.mtime, success := true,
                   message := "Success", timeout := timeout,
                   execution_time := .finite (env.parseTime + env.execTime) },
        cleanupCount := 1,
        cleanupLogs := cleanup_notebook_client (some client) }
    else
      { stats := { last_modified := env.mtime, success := false,
                   message := env.execErr, timeout := timeout,
                   execution_time := .inf },
        cleanupCount := 1,
        cleanupLogs := cleanup_notebook_client (some client) }
  else
    { stats := { last_modified := env.mtime, success := false,
                 message := env.parseErr, timeout := timeout,
                 execution_time := .inf },
      cleanupCount := 0,
      cleanupLogs := [] }

/-- `NotebookTester.test_notebook` (main.py lines 206-262).  Returns either
an uncaught Python exception (`.error`) or the `TestResult` together with
the cache record written (`none` when nothing was written).

The call to `_should_run_test` at line 208 is unguarded, so a corrupt cache
file propagates its exception.  On the skip path, the second cache read
(lines 213-221) IS guarded: a read failure there yields a non-cached
failure result.  On the execute path, `save_to_cache` at line 257 is
unguarded, so a cache write failure (`writeErr = some e`) propagates and
the in-memory result is lost. -/
def test_notebook (force : Bool) (cache_dir : Option String) (timeout : Int)
    (path : String) (cacheState : CacheState) (srcMtime : ℚ)
    (env : ExecEnv) (client : ClientState) (writeErr : Option String) :
    Except String (TestResult × Option NotebookStats) :=
  match should_run_test force cache_dir timeout cacheState srcMtime with
  | .error e => .error e
  | .ok false =>
    if cache_dir.isNone then
      .ok ({ notebook_path := path, success := false,
             message := "No cache dir found", cached := false }, none)
    else
      match cacheState with
      | .valid rec =>
        .ok ({ notebook_path := path, success := rec.success,
               message := rec.message, cached := true }, none)
      | .corrupt e =>
        .ok ({ notebook_path := path, success := false,
               message := "Error reading cache: " ++ e, cached := false }, none)
      | .absent =>
        .ok ({ notebook_path := path, success := false,
               message := "Error reading cache: file not found",
               cached := false }, none)
  | .ok true =>
    let r := execute_notebook timeout env client
    let stats : NotebookStats :=
      { last_modified := env.mtime, success := r.stats.success,
        message := r.stats.message, timeout := r.stats.timeout,
        execution_time := r.stats.execution_time }
    match writeErr with
    | some e => .error e
    | none =>
      .ok ({ notebook_path := path, success := r.stats.success,
             message := r.stats.message, cached := false }, some stats)

/-- The three summary buckets of §4.3. -/
inductive Bucket where
  | success
  | timeout
  | failure
deriving DecidableEq, Repr

/-- The classification rule applied to each collected `TestResult` in
`run_tests` (main.py lines 295-311): success if the success flag is set,
else timeout exactly when the message contains the marker substring, else
failure. -/
def classify (r : TestResult) : Bucket :=
  if r.success then .success
  else if containsSub r.message timeoutMarker then .timeout
  else .failure

/-- The three counters `successful`, `failed`, `no_more_time` of the tester
(main.py lines 62-64), all initialised to 0. -/
structure RunCounters where
  successful : Nat
  failed : Nat
  no_more_time : Nat
deriving DecidableEq, Repr

/-- One iteration of the result-collection loop of `run_tests` (main.py
lines 292-316): `future.result()` either raises (`.error`, caught at line
313 and counted as failed) or yields a `TestResult` classified by the
if/elif/else at lines 295-311. -/
def collect_step (c : RunCounters) (outcome : Except String TestResult) :
    RunCounters :=
  match outcome with
  | .error _ => { c with failed := c.failed + 1 }
  | .ok r =>
    if r.success then { c with successful := c.successful + 1 }
    else if containsSub r.message timeoutMarker then
      { c with no_more_time := c.no_more_time + 1 }
    else { c with failed := c.failed + 1 }

/-- The whole collection loop of a completed (non-interrupted) `run_tests`
over the outcomes of the `N` submitted futures, in completion order,
starting from the freshly initialised counters. -/
def run_tests_collect (outcomes : List (Except String TestResult)) :
    RunCounters :=
  outcomes.foldl collect_step { successful := 0, failed := 0, no_more_time := 0 }

/-- Sum of the three counters. -/
def countersTotal (c : RunCounters) : Nat :=
  c.successful + c.failed + c.no_more_time

/-- C1: the skip decision of `_should_run_test` follows the `shouldRun`
contract: it returns true if force is set or no cache record exists;
otherwise it returns false when the stored record's budget is ≥ the current
budget and the stored message contains the timeout marker; otherwise it
returns true exactly when the source mtime is strictly greater than the
record's `last_modified` or the stored run was not successful.  A job that
timed out under budget `B` is re-executed under any budget `B1 > B` and
skipped under any budget `B2 ≤ B`, the skip returning the stored (failed)
cached result. -/
theorem c1_should_run_contract (cd : String) (t B : Int) (m : ℚ)
    (rec : NotebookStats) :
    (∀ cs, should_run_test true (some cd) t cs m = .ok true) ∧
    (∀ force, should_run_test force (some cd) t .absent m = .ok true) ∧
    (t ≤ rec.timeout ∧ containsSub rec.message timeoutMarker = true →
      should_run_test false (some cd) t (.valid rec) m = .ok false) ∧
    (¬(t ≤ rec.timeout ∧ containsSub rec.message timeoutMarker = true) →
      should_run_test false (some cd) t (.valid rec) m
        = .ok (decide (rec.last_modified < m) || !rec.success)) ∧
    (rec.success = false → containsSub rec.message timeoutMarker = true →
      rec.timeout = B →
      (∀ B1, B < B1 →
        should_run_test false (some cd) B1 (.valid rec) m = .ok true) ∧
      (∀ B2, B2 ≤ B →
        should_run_test false (some cd) B2 (.valid rec) m = .ok false ∧
        ∀ path env client,
          test_notebook false (some cd) B2 path (.valid rec) m env client none
            = .ok ({ notebook_path := path, success := rec.success,
                     message := rec.message, cached := true }, none))) := by
  refine ⟨?_, ?_, ?_, ?_, ?_⟩
  · intro cs
    simp [should_run_test]
  · intro force
    cases force <;> simp [should_run_test]
  · rintro ⟨h1, h2⟩
    simp [should_run_test, h1, h2]
  · intro h
    rcases Bool.eq_false_or_eq_true (containsSub rec.message timeoutMarker) with hc | hc
    · have hle : ¬(t ≤ rec.timeout) := fun hle => h ⟨hle, hc⟩
      simp [should_run_test, hc, hle]
    · simp [should_run_test, hc]
  · intro hs hm hB
    constructor
    · intro B1 h1
      have hle : ¬(B1 ≤ rec.timeout) := by rw [hB]; omega
      simp [should_run_test, hle, hs]
    · intro B2 h2
      have hle : B2 ≤ rec.timeout := by rw [hB]; omega
      have hrun : should_run_test false (some cd) B2 (.valid rec) m = .ok false := by
        simp [should_run_test, hle, hm]
      refine ⟨hrun, ?_⟩
      intro path env client
      simp [test_notebook, hrun]

/-- Witness for C1: a record that timed out with budget 60 is re-executed
under budget 61 and skipped under budget 60. -/
theorem c1_should_run_contract_witness :
    should_run_test false (some "cache") 61
        (.valid ⟨0, false, "A cell timed out", 60, .inf⟩) 0 = .ok true ∧
    should_run_test false (some "cache") 60
        (.valid ⟨0, false, "A cell timed out", 60, .inf⟩) 0 = .ok false := by
  have h := c1_should_run_contract "cache" 60 60 0
      ⟨0, false, "A cell timed out", 60, .inf⟩
  have h5 := h.2.2.2.2 rfl (by decide) rfl
  exact ⟨h5.1 61 (by decide), (h5.2 60 (by decide)).1⟩

/-- C2 (code-bug evidence): `save_to_cache` writes the record file in place
with no temporary file and no rename, so the write is not atomic with
respect to partial writes: a crash right after `open("w")` truncates an
existing record to an empty file, which is neither the old nor the new
record. -/
theorem c2_save_to_cache_not_atomic :
    save_to_cache_trace "f.json" "record-run-2"
      = [.openTrunc "f.json", .writeChunk "f.json" "record-run-2",
         .closeFile "f.json"] ∧
    runOpsOn "f.json" (some "record-run-1")
        ((save_to_cache_trace "f.json" "record-run-2").take 1) = some "" ∧
    atomicWrtB "f.json" (some "record-run-1") "record-run-2"
        (save_to_cache_trace "f.json" "record-run-2") = false :=
  ⟨rfl, by decide, by decide⟩

/-- C3 counterexample: `_get_cache_key` is not injective on canonical
absolute paths: the distinct paths `/tmp/a_b.ipynb` and `/tmp/a/b.ipynb`
are mapped to the same cache key. -/
theorem c3_cache_key_collision :
    ("/tmp/a_b.ipynb" : String) ≠ "/tmp/a/b.ipynb" ∧
    get_cache_key ⟨"/tmp/a_b.ipynb", "/tmp/a_b.ipynb"⟩
      = get_cache_key ⟨"/tmp/a/b.ipynb", "/tmp/a/b.ipynb"⟩ :=
  ⟨by decide, by decide⟩

/-- C3 amended: the cache key is a deterministic function of the job's
canonical absolute path (`str(path.resolve())`): any two references that
resolve to the same file map to the same key.  (It is not injective, see
the counterexample.) -/
theorem c3_cache_key_deterministic (p q : PyPath)
    (h : p.resolved = q.resolved) :
    get_cache_key p = get_cache_key q := by
  simp [get_cache_key, h]

/-- Witness for the amended C3: a relative spelling and a roundabout
spelling of the same file get the same cache key. -/
theorem c3_cache_key_deterministic_witness :
    get_cache_key ⟨"./nb.ipynb", "/repo/nb.ipynb"⟩
      = get_cache_key ⟨"/repo/../repo/nb.ipynb", "/repo/nb.ipynb"⟩ :=
  c3_cache_key_deterministic ⟨"./nb.ipynb", "/repo/nb.ipynb"⟩
    ⟨"/repo/../repo/nb.ipynb", "/repo/nb.ipynb"⟩ rfl

/-- C9 (code-bug evidence): constructing the tester with a null cache
directory raises (`Path(None)` at main.py line 58 throws `TypeError`)
instead of disabling caching, while a non-null cache directory succeeds. -/
theorem c9_init_none_raises :
    NotebookTester_init 60 none false
      = .error "TypeError: argument should be a str or an os.PathLike object, not NoneType" ∧
    NotebookTester_init 60 (some ".notebookcache") false
      = .ok ⟨60, some ".notebookcache", false⟩ :=
  ⟨rfl, rfl⟩

/-- C4: every collected `TestResult` falls into exactly one of the three
summary buckets by the single rule of lines 295-311: success iff its
success flag is set; otherwise timeout iff its message contains the literal
marker substring; otherwise failure — and the collection step increments
exactly the counter named by that bucket. -/
theorem c4_classification (c : RunCounters) (r : TestResult) :
    (classify r = .success ↔ r.success = true) ∧
    (classify r = .timeout ↔
      r.success = false ∧ containsSub r.message timeoutMarker = true) ∧
    (classify r = .failure ↔
      r.success = false ∧ containsSub r.message timeoutMarker = false) ∧
    collect_step c (.ok r)
      = (match classify r with
         | .success => { c with successful := c.successful + 1 }
         | .timeout => { c with no_more_time := c.no_more_time + 1 }
         | .failure => { c with failed := c.failed + 1 }) := by
  rcases r with ⟨p, s, msg, cf⟩
  cases s <;>
    rcases Bool.eq_false_or_eq_true (containsSub msg timeoutMarker) with hm | hm <;>
    simp_all [classify, collect_step]

/-- C5 counterexample: on a successful run whose parse step consumes 1 s
and whose execution step consumes 5 s, the recorded `execution_time` is 6 s
(measured from before `open`/`nbformat.read`), not the 5 s wall-clock
duration of the execution step alone. -/
theorem c5_execution_time_counterexample :
    (execute_notebook 60 ⟨true, "", 1, true, "", 5, 0⟩ ⟨none, none⟩).stats.execution_time
      ≠ PyFloat.finite 5 ∧
    (execute_notebook 60 ⟨true, "", 1, true, "", 5, 0⟩ ⟨none, none⟩).stats.execution_time
      = PyFloat.finite 6 := by
  constructor
  · norm_num [execute_notebook]
  · norm_num [execute_notebook]

/-- C5 amended: on success the recorded `execution_time` is the wall-clock
time from just before the document is opened and parsed until execution
completes (parse time plus execution time, since `start_time` is taken
before `open`); on any failure it is the sentinel `float("inf")`. -/
theorem c5_execution_time_amended (t : Int) (env : ExecEnv)
    (client : ClientState) :
    (env.parseOk = true → env.execOk = true →
      (execute_notebook t env client).stats.execution_time
        = .finite (env.parseTime + env.execTime)) ∧
    (env.parseOk = false ∨ env.execOk = false →
      (execute_notebook t env client).stats.execution_time = .inf) := by
  constructor
  · intro h1 h2
    simp [execute_notebook, h1, h2]
  · rintro (h | h)
    · simp [execute_notebook, h]
    · cases hp : env.parseOk <;> simp [execute_notebook, h, hp]

/-- Witness for the amended C5: a 1 s parse plus 5 s execution records 6 s;
a failed execution records infinity. -/
theorem c5_execution_time_amended_witness :
    (execute_notebook 60 ⟨true, "", 1, true, "", 5, 0⟩ ⟨none, none⟩).stats.execution_time
      = PyFloat.finite 6 ∧
    (execute_notebook 60 ⟨true, "", 1, false, "boom", 5, 0⟩ ⟨none, none⟩).stats.execution_time
      = PyFloat.inf := by
  constructor
  · have h := (c5_execution_time_amended 60 ⟨true, "", 1, true, "", 5, 0⟩
      ⟨none, none⟩).1 rfl rfl
    rw [h]
    norm_num
  · exact (c5_execution_time_amended 60 ⟨true, "", 1, false, "boom", 5, 0⟩
      ⟨none, none⟩).2 (Or.inr rfl)

/-- C6 counterexample: with a corrupt cache record file, `test_notebook`
raises the cache-read exception instead of re-executing the notebook; and
with a failing cache write, `test_notebook` raises instead of returning the
in-memory `TestResult`. -/
theorem c6_cache_error_counterexample :
    should_run_test false (some "cache") 60 (.corrupt "JSONDecodeError") 0
      = .error "JSONDecodeError" ∧
    test_notebook false (some "cache") 60 "nb.ipynb" (.corrupt "JSONDecodeError")
        0 ⟨true, "", 0, true, "", 1, 0⟩ ⟨none, none⟩ none
      = .error "JSONDecodeError" ∧
    test_notebook false (some "cache") 60 "nb.ipynb" .absent
        0 ⟨true, "", 0, true, "", 1, 0⟩ ⟨none, none⟩ (some "PermissionError")
      = .error "PermissionError" :=
  ⟨rfl, rfl, rfl⟩

/-- C6 amended: a corrupt cache record file makes the unguarded read in
`_should_run_test` raise, so the exception propagates out of
`test_notebook` (the job is not re-executed); a failure while writing the
cache record likewise propagates, so the in-memory `TestResult` is not
returned.  In both cases `run_tests`' collection handler catches the
exception and counts the job as failed, so the batch itself continues. -/
theorem c6_cache_error_behavior (cd : String) (t : Int) (path : String)
    (e w : String) (m : ℚ) (cs : CacheState) (env : ExecEnv)
    (client : ClientState) (we : Option String) (c : RunCounters) :
    (test_notebook false (some cd) t path (.corrupt e) m env client we
      = .error e) ∧
    (should_run_test false (some cd) t cs m = .ok true →
      test_notebook false (some cd) t path cs m env client (some w)
        = .error w) ∧
    collect_step c (.error e) = { c with failed := c.failed + 1 } := by
  refine ⟨?_, ?_, rfl⟩
  · simp [test_notebook, should_run_test]
  · intro h
    simp [test_notebook, h]

/-- Witness for the amended C6: a corrupt record propagates its error; a
failing write propagates its error. -/
theorem c6_cache_error_behavior_witness :
    test_notebook false (some "cache") 60 "nb" (.corrupt "bad json") 0
        ⟨true, "", 0, true, "", 1, 0⟩ ⟨none, none⟩ none = .error "bad json" ∧
    test_notebook false (some "cache") 60 "nb" .absent 0
        ⟨true, "", 0, true, "", 1, 0⟩ ⟨none, none⟩ (some "disk full")
      = .error "disk full" := by
  have h := c6_cache_error_behavior "cache" 60 "nb" "bad json" "disk full" 0
      .absent ⟨true, "", 0, true, "", 1, 0⟩ ⟨none, none⟩ none ⟨0, 0, 0⟩
  exact ⟨h.1, h.2.1 rfl⟩

/-- C7: once the sandbox client has been created (parsing succeeded), the
`finally` block of `_execute_notebook` invokes `_cleanup_notebook_client`
exactly once, on the success path and on the exception path alike; the
resulting stats do not depend on the client's teardown behavior (so a
teardown timeout never changes the success/failure classification); and a
kernel shutdown that exceeds its 2.0 s bound is logged and abandoned. -/
theorem c7_teardown (t : Int) (env : ExecEnv) (client client2 : ClientState)
    (km : KernelMgr) (hp : env.parseOk = true) :
    (execute_notebook t env client).cleanupCount = 1 ∧
    (execute_notebook t env client).stats
      = (execute_notebook t env client2).stats ∧
    (km.hasShutdownKernel = true → km.shutdown = .timesOut →
      safe_shutdown_kernel (some km) = [.kernelTimeoutLogged]) := by
  refine ⟨?_, ?_, ?_⟩
  · cases he : env.execOk <;> simp [execute_notebook, hp, he]
  · cases he : env.execOk <;> simp [execute_notebook, hp, he]
  · intro h1 h2
    simp [safe_shutdown_kernel, h1, h2]

/-- Witness for C7: a failing execution still tears the session down
exactly once, and a timing-out kernel shutdown is logged. -/
theorem c7_teardown_witness :
    (execute_notebook 60 ⟨true, "", 0, false, "boom", 3, 0⟩
        ⟨none, none⟩).cleanupCount = 1 ∧
    safe_shutdown_kernel (some ⟨true, .timesOut⟩) = [.kernelTimeoutLogged] := by
  have h := c7_teardown 60 ⟨true, "", 0, false, "boom", 3, 0⟩ ⟨none, none⟩
      ⟨some ⟨true, some "x"⟩, some ⟨true, .timesOut⟩⟩ ⟨true, .timesOut⟩ rfl
  exact ⟨h.1, h.2.2 rfl rfl⟩

/-- Every collection step increments the total of the three counters by
exactly one, whether the future yielded a result or raised. -/
theorem countersTotal_collect_step (c : RunCounters)
    (o : Except String TestResult) :
    countersTotal (collect_step c o) = countersTotal c + 1 := by
  rcases o with e | r
  · simp [collect_step, countersTotal]
    omega
  · rcases r with ⟨p, s, msg, cf⟩
    cases s <;>
      rcases Bool.eq_false_or_eq_true (containsSub msg timeoutMarker) with hm | hm <;>
      simp_all [collect_step, countersTotal] <;> omega

/-- Folding the collection step over any outcome list adds its length to
the counter total. -/
theorem countersTotal_foldl (outcomes : List (Except String TestResult))
    (c : RunCounters) :
    countersTotal (outcomes.foldl collect_step c)
      = countersTotal c + outcomes.length := by
  induction outcomes generalizing c with
  | nil => simp
  | cons o os ih =>
    simp only [List.foldl_cons, List.length_cons, ih, countersTotal_collect_step]
    omega

/-- C8: after a completed (non-interrupted) collection loop over the `N`
outcomes of a batch, `successful + failed + no_more_time = N`; a job whose
retrieval raised increments exactly the failed counter. -/
theorem c8_aggregate_conservation
    (outcomes : List (Except String TestResult)) :
    countersTotal (run_tests_collect outcomes) = outcomes.length ∧
    (∀ c e, collect_step c (.error e) = { c with failed := c.failed + 1 }) := by
  constructor
  · rw [run_tests_collect, countersTotal_foldl]
    simp [countersTotal]
  · intro c e
    rfl

/-- Inversion of the skip decision: `_should_run_test` answers "skip"
(`.ok false`) only when the cache holds a valid record whose stored run
either succeeded or carries the timeout marker in its message. -/
theorem should_run_false_record (force : Bool) (cd : Option String) (t : Int)
    (cs : CacheState) (m : ℚ)
    (h : should_run_test force cd t cs m = .ok false) :
    ∃ rec, cs = .valid rec ∧
      (rec.success = true ∨ containsSub rec.message timeoutMarker = true) := by
  unfold should_run_test at h
  split at h
  · exact absurd h (by simp)
  · split at h
    · exact absurd h (by simp)
    · exact absurd h (by simp)
    · rename_i rec
      refine ⟨rec, rfl, ?_⟩
      split at h
      · rename_i hg
        right
        exact (Bool.and_eq_true _ _ |>.mp hg).2
      · left
        have hb : (decide (rec.last_modified < m) || !rec.success) = false := by
          injection h
        have h2 := (Bool.or_eq_false_iff.mp hb).2
        simpa using h2

/-- C10: a `TestResult` that `test_notebook` returns with its cached flag
set has either its success flag set or the timeout marker in its message,
so a cache hit is never classified into the plain-failure bucket. -/
theorem c10_cached_never_plain_failure (force : Bool)
    (cache_dir : Option String) (t : Int) (path : String) (cs : CacheState)
    (m : ℚ) (env : ExecEnv) (client : ClientState) (we : Option String)
    (res : TestResult) (written : Option NotebookStats)
    (h : test_notebook force cache_dir t path cs m env client we
      = .ok (res, written))
    (hc : res.cached = true) :
    (res.success = true ∨ containsSub res.message timeoutMarker = true) ∧
    classify res ≠ .failure := by
  have hmain : res.success = true ∨ containsSub res.message timeoutMarker = true := by
    unfold test_notebook at h
    split at h
    · exact absurd h (by simp)
    · rename_i hr
      split at h
      · injection h with h1
        injection h1 with h1 h2
        subst h1
        exact absurd hc (by simp)
      · split at h
        · rename_i rec
          injection h with h1
          injection h1 with h1 h2
          subst h1
          obtain ⟨rec2, hval, hor⟩ :=
            should_run_false_record force cache_dir t _ m hr
          injection hval with hval
          subst hval
          simpa using hor
        · injection h with h1
          injection h1 with h1 h2
          subst h1
          exact absurd hc (by simp)
        · injection h with h1
          injection h1 with h1 h2
          subst h1
          exact absurd hc (by simp)
    · cases we with
      | some e => exact absurd h (by simp)
      | none =>
        injection h with h1
        injection h1 with h1 h2
        subst h1
        exact absurd hc (by simp)
  refine ⟨hmain, ?_⟩
  rcases hmain with hs | hm
  · simp [classify, hs]
  · rcases Bool.eq_false_or_eq_true res.success with hsucc | hsucc
    · simp [classify, hsucc]
    · simp [classify, hsucc, hm]

/-- Witness for C10: a cached hit on a previously successful record is a
success, not a plain failure. -/
theorem c10_cached_never_plain_failure_witness :
    ((⟨"nb", true, "Success", true⟩ : TestResult).success = true
      ∨ containsSub (⟨"nb", true, "Success", true⟩ : TestResult).message
          timeoutMarker = true) ∧
    classify ⟨"nb", true, "Success", true⟩ ≠ .failure :=
  c10_cached_never_plain_failure false (some "cache") 60 "nb"
    (.valid ⟨5, true, "Success", 60, .finite 2⟩) 3
    ⟨true, "", 0, true, "", 1, 0⟩ ⟨none, none⟩ none
    ⟨"nb", true, "Success", true⟩ none rfl rfl
